import Mathlib

/-!
Shallow embedding of `cell_components.py` (WattCell): a pouch-cell
property calculator.  All Python floats are modelled as rationals (ℚ),
so every arithmetic identity below is exact.  Python's runtime failures
(`KeyError` on a missing dict key, `TypeError` from subscripting the
`None` returned by `dict.get`, `ZeroDivisionError` on division by zero)
are modelled by an `Except PyErr` result at exactly the program points
where the source can raise, in source order.
-/

namespace WattCell

/-- The runtime errors the Python source can actually raise during the
computations modelled here. -/
inductive PyErr where
  | zeroDivisionError : PyErr
  | keyError : String → PyErr
  | typeError : PyErr
deriving DecidableEq

/-- Density lookup in the module-level `materials` dict
(`materials[name]['density']`): the nine top-level entries that carry a
numeric `'density'` key.  Any other name yields `none` (in Python the
lookup raises).  The nested `'tabs'` / `'electrolytes'` sub-tables carry
no top-level `'density'` and are never looked up by the modelled code
paths. -/
def materials_density : String → Option ℚ
  | "Cu" => some (894/100)
  | "Al" => some (27/10)
  | "Prussian Blue" => some (18/10)
  | "Hard Carbon" => some (16/10)
  | "SuperP" => some (19/10)
  | "PVDF" => some (178/100)
  | "CMC+SBR" => some ((16/10 + 96/100)/2)
  | "Celgard 2325" => some (74/100)
  | "pouch" => some (162/100)
  | _ => none

/-- Embeds `materials['SuperP']['density']` — the fixed conductive-carbon
density used inside `Electrode.calculate_composite_density`. -/
def superP_density : ℚ := 19/10

/-- The `Electrode` dataclass.  The `mass_ratio` dict is modelled by its
three keys `am` / `carbon` / `binder` as separate fields.  `density` and
`areal_capacity` are the `field(init=False)` attributes filled in by
`__post_init__`; a raw (pre-`__post_init__`) record carries arbitrary
values there. -/
structure Electrode where
  active_material : String
  mass_ratio_am : ℚ
  mass_ratio_carbon : ℚ
  mass_ratio_binder : ℚ
  binder : String
  porosity : ℚ
  voltage : ℚ
  capacity : ℚ
  density_am : ℚ
  width : ℚ
  height : ℚ
  cc_thickness : ℚ
  current_collector : String
  thickness : ℚ
  tab_height : ℚ
  tab_width : ℚ
  density : ℚ
  areal_capacity : ℚ
deriving DecidableEq

/-- Embeds `Electrode.calculate_areal_capacity`:
`density * thickness * capacity * mass_ratio['am']` (the method stores
this value into `self.areal_capacity`). -/
def calculate_areal_capacity (e : Electrode) : ℚ :=
  e.density * e.thickness * e.capacity * e.mass_ratio_am

/-- Embeds `Electrode.__post_init__`: runs `calculate_composite_density`
(volume-fraction mix of the three constituents, scaled by
`1 - porosity`) and then `calculate_areal_capacity`.  Failure points, in
source order: division by a zero `density_am`, lookup of an unknown
binder name, division by a zero binder density, and division by a zero
total solid volume. -/
def electrodePostInit (e : Electrode) : Except PyErr Electrode :=
  if e.density_am = 0 then .error .zeroDivisionError
  else
    match materials_density e.binder with
    | none => .error (.keyError e.binder)
    | some db =>
      if db = 0 then .error .zeroDivisionError
      else
        let vam := e.mass_ratio_am / e.density_am
        let vc := e.mass_ratio_carbon / superP_density
        let vb := e.mass_ratio_binder / db
        let s := vam + vc + vb
        if s = 0 then .error .zeroDivisionError
        else
          let e1 := { e with density := (1 - e.porosity) *
            (vam / s * e.density_am + vc / s * superP_density + vb / s * db) }
          .ok { e1 with areal_capacity := calculate_areal_capacity e1 }

/-- The `Separator` dataclass: plain data, no derived fields. -/
structure Separator where
  material : String
  width : ℚ
  height : ℚ
  thickness : ℚ
  porosity : ℚ
  density : ℚ
deriving DecidableEq

/-- The `Electrolyte` dataclass.  `volume` and `volume_per_ah` are
`field(init=False)` attributes written only by the Cell; a raw record
carries arbitrary values there. -/
structure Electrolyte where
  material : String
  density : ℚ
  volume_excess : ℚ
  volume : ℚ
  volume_per_ah : ℚ
deriving DecidableEq

/-- The `Pouch` dataclass. -/
structure Pouch where
  width : ℚ
  height : ℚ
  thickness : ℚ
  density : ℚ
deriving DecidableEq

/-- The `Tab` dataclass.  `density_cathode` / `density_anode` are filled
in by `__post_init__`. -/
structure Tab where
  material_cathode : String
  material_anode : String
  height : ℚ
  width : ℚ
  thickness : ℚ
  density_cathode : ℚ
  density_anode : ℚ
deriving DecidableEq

/-- Embeds `Tab.__post_init__`: `materials.get(name)['density']` for both
contact materials.  When the name is absent, `dict.get` returns `None`
and subscripting it raises `TypeError` (cathode material is looked up
first). -/
def tabPostInit (t : Tab) : Except PyErr Tab :=
  match materials_density t.material_cathode with
  | none => .error .typeError
  | some dc =>
    match materials_density t.material_anode with
    | none => .error .typeError
    | some da => .ok { t with density_cathode := dc, density_anode := da }

/-- The `Cell` dataclass: the six component objects, the layering and
ratio parameters, and the six `field(init=False)` result attributes
written by `calculate_energy_density` (arbitrary values in a raw,
pre-`__post_init__` record). -/
structure Cell where
  cathode : Electrode
  anode : Electrode
  separator : Separator
  electrolyte : Electrolyte
  format : Pouch
  tabs : Tab
  layers_number : ℕ
  n_p_ratio : ℚ
  ice : ℚ
  volumetric_energy_density : ℚ
  gravimetric_energy_density : ℚ
  energy : ℚ
  capacity : ℚ
  total_mass : ℚ
  total_volume : ℚ
deriving DecidableEq

/-- Embeds `cathode_volume` (source line 174):
`cathode.width * cathode.height * cathode.thickness * 2 * layers_number`. -/
def cathode_volume (c : Cell) : ℚ :=
  c.cathode.width * c.cathode.height * c.cathode.thickness * 2 * (c.layers_number : ℚ)

/-- Embeds `anode_volume` (line 175): `(2 * layers_number + 2)` copies — one
extra anode layer beyond the stack. -/
def anode_volume (c : Cell) : ℚ :=
  c.anode.width * c.anode.height * c.anode.thickness * (2 * (c.layers_number : ℚ) + 2)

/-- Embeds `separator_volume` (line 176). -/
def separator_volume (c : Cell) : ℚ :=
  c.separator.width * c.separator.height * c.separator.thickness * 2 * (c.layers_number : ℚ)

/-- Embeds `pouch_volume` (line 177): two enclosure faces. -/
def pouch_volume (c : Cell) : ℚ :=
  c.format.width * c.format.height * c.format.thickness * 2

/-- Embeds `anode_cc_volume` (lines 178-180).  Note the source adds
`tab_height + tab_width` (a length sum), exactly as written. -/
def anode_cc_volume (c : Cell) : ℚ :=
  ((c.layers_number : ℚ) + 1) *
    (c.anode.width * c.anode.height + c.anode.tab_height + c.anode.tab_width) *
    c.anode.cc_thickness

/-- Embeds `cathode_cc_volume` (lines 181-183).  Here the source multiplies
`tab_height * tab_width` (an area), exactly as written. -/
def cathode_cc_volume (c : Cell) : ℚ :=
  (c.layers_number : ℚ) *
    (c.cathode.width * c.cathode.height + c.cathode.tab_height * c.cathode.tab_width) *
    c.cathode.cc_thickness

/-- Embeds `cathode_mass` (line 186). -/
def cathode_mass (c : Cell) : ℚ := cathode_volume c * c.cathode.density

/-- Embeds `anode_mass` (line 187). -/
def anode_mass (c : Cell) : ℚ := anode_volume c * c.anode.density

/-- Embeds `separator_mass` (line 188). -/
def separator_mass (c : Cell) : ℚ := separator_volume c * c.separator.density

/-- Embeds `pouch_mass` (line 189). -/
def pouch_mass (c : Cell) : ℚ := pouch_volume c * c.format.density

/-- Embeds `tabs_mass` (line 192): both tabs combined in one term. -/
def tabs_mass (c : Cell) : ℚ :=
  c.tabs.height * c.tabs.width * c.tabs.thickness *
    (c.tabs.density_cathode + c.tabs.density_anode)

/-- Embeds `total_void_volume` (lines 195-198): porosity-weighted sum of the
cathode, anode and separator volumes. -/
def total_void_volume (c : Cell) : ℚ :=
  cathode_volume c * c.cathode.porosity + anode_volume c * c.anode.porosity +
    separator_volume c * c.separator.porosity

/-- Embeds `self.electrolyte.volume` (line 201):
`total_void_volume * (1 + volume_excess)`. -/
def electrolyte_volume (c : Cell) : ℚ :=
  total_void_volume c * (1 + c.electrolyte.volume_excess)

/-- Embeds `electrolyte_mass` (line 202). -/
def electrolyte_mass (c : Cell) : ℚ := electrolyte_volume c * c.electrolyte.density

/-- Embeds `self.total_mass` (line 205); `dcc` / `dacc` are the table densities
of the cathode / anode current-collector materials. -/
def total_mass (c : Cell) (dcc dacc : ℚ) : ℚ :=
  cathode_mass c + cathode_cc_volume c * dcc + anode_mass c + anode_cc_volume c * dacc +
    separator_mass c + pouch_mass c + tabs_mass c + electrolyte_mass c

/-- Embeds `self.total_volume` (line 206), in source term order: the
electrolyte contributes only `volume - total_void_volume`. -/
def total_volume (c : Cell) : ℚ :=
  cathode_volume c + anode_volume c + separator_volume c + pouch_volume c +
    (electrolyte_volume c - total_void_volume c) + anode_cc_volume c + cathode_cc_volume c

/-- Embeds `cathode_capacity` (line 209): `mass * mass_ratio['am'] * capacity / 1000` (Ah). -/
def cathode_capacity (c : Cell) : ℚ :=
  cathode_mass c * c.cathode.mass_ratio_am * c.cathode.capacity / 1000

/-- Embeds `anode_capacity` (line 210). -/
def anode_capacity (c : Cell) : ℚ :=
  anode_mass c * c.anode.mass_ratio_am * c.anode.capacity / 1000

/-- Embeds `self.capacity` (line 211): limiting electrode, derated by `ice`. -/
def cell_capacity (c : Cell) : ℚ :=
  min (cathode_capacity c) (anode_capacity c) * c.ice

/-- Embeds `self.energy` (lines 217-218): capacity times
`cathode.voltage - anode.voltage`. -/
def cell_energy (c : Cell) : ℚ :=
  cell_capacity c * (c.cathode.voltage - c.anode.voltage)

/-- Embeds `Cell.calculate_anode_properties` (lines 152-160) as a pure state
transformer: overwrite `anode.thickness` with
`cathode.areal_capacity * n_p_ratio / (anode.density * anode.capacity *
anode.mass_ratio['am'])`, then re-run `calculate_areal_capacity` on the
anode. -/
def sized_anode (c : Cell) : Cell :=
  let required_anode_capacity := c.cathode.areal_capacity * c.n_p_ratio
  let t := required_anode_capacity /
    (c.anode.density * c.anode.capacity * c.anode.mass_ratio_am)
  let a1 := { c.anode with thickness := t }
  { c with anode := { a1 with areal_capacity := calculate_areal_capacity a1 } }

/-- Embeds `Cell.calculate_anode_properties` with its failure point: the Python
float division raises `ZeroDivisionError` when
`anode.density * anode.capacity * anode.mass_ratio['am'] = 0`. -/
def calculate_anode_properties (c : Cell) : Except PyErr Cell :=
  if c.anode.density * c.anode.capacity * c.anode.mass_ratio_am = 0 then
    .error .zeroDivisionError
  else .ok (sized_anode c)

/-- The record written by a successful `calculate_energy_density` run
(lines 200-222): electrolyte volume and volume-per-Ah, total mass and
volume, capacity, energy, and the two energy densities. -/
def energy_density_result (c : Cell) (dcc dacc : ℚ) : Cell :=
  { c with
    electrolyte := { c.electrolyte with
      volume := electrolyte_volume c,
      volume_per_ah := electrolyte_volume c / cell_capacity c },
    total_mass := total_mass c dcc dacc,
    total_volume := total_volume c,
    capacity := cell_capacity c,
    energy := cell_energy c,
    volumetric_energy_density := cell_energy c / total_volume c * 1000,
    gravimetric_energy_density := cell_energy c / total_mass c dcc dacc * 1000 }

/-- Embeds `Cell.calculate_energy_density` (lines 162-222) with its failure
points in source order: `materials[...]` lookup of the cathode
current-collector (line 190, `KeyError` when absent), then of the anode
current-collector (line 191), then `ZeroDivisionError` at
`volume / capacity` (line 214), at `energy / total_volume` (line 221)
and at `energy / total_mass` (line 222). -/
def calculate_energy_density (c : Cell) : Except PyErr Cell :=
  match materials_density c.cathode.current_collector with
  | none => .error (.keyError c.cathode.current_collector)
  | some dcc =>
    match materials_density c.anode.current_collector with
    | none => .error (.keyError c.anode.current_collector)
    | some dacc =>
      if cell_capacity c = 0 then .error .zeroDivisionError
      else if total_volume c = 0 then .error .zeroDivisionError
      else if total_mass c dcc dacc = 0 then .error .zeroDivisionError
      else .ok (energy_density_result c dcc dacc)

/-- Embeds `Cell.__post_init__` (lines 148-150): anode sizing, then the
aggregation stage. -/
def cellPostInit (c : Cell) : Except PyErr Cell :=
  match calculate_anode_properties c with
  | .error e => .error e
  | .ok c1 => calculate_energy_density c1

/-- Concrete Prussian Blue cathode from the spec scenario, before
`__post_init__` (the two derived fields still hold the placeholder 0).
Material constants come from the `materials` table; the formulation
(80/10/10 mass split, 25% porosity, 10 cm x 10 cm plate, 0.02 cm
coating, 16 µm = 0.0016 cm Al foil) is a representative valid input. -/
def rawSpecCathode : Electrode :=
  { active_material := "Prussian Blue"
    mass_ratio_am := 8/10
    mass_ratio_carbon := 1/10
    mass_ratio_binder := 1/10
    binder := "CMC+SBR"
    porosity := 1/4
    voltage := 32/10
    capacity := 150
    density_am := 18/10
    width := 10
    height := 10
    cc_thickness := 16/10000
    current_collector := "Al"
    thickness := 2/100
    tab_height := 1
    tab_width := 1
    density := 0
    areal_capacity := 0 }

/-- The cathode after `Electrode.__post_init__`. -/
def specCathode : Electrode :=
  match electrodePostInit rawSpecCathode with
  | .ok e => e
  | .error _ => rawSpecCathode

/-- Concrete Hard Carbon anode from the spec scenario, before
`__post_init__` (90/5/5 mass split, 25% porosity, 10.2 cm plates,
6 µm = 0.0006 cm Cu foil; coating thickness starts at the dataclass
default 0 and is overwritten by the Cell). -/
def rawSpecAnode : Electrode :=
  { active_material := "Hard Carbon"
    mass_ratio_am := 9/10
    mass_ratio_carbon := 1/20
    mass_ratio_binder := 1/20
    binder := "CMC+SBR"
    porosity := 1/4
    voltage := 1/10
    capacity := 300
    density_am := 16/10
    width := 102/10
    height := 102/10
    cc_thickness := 6/10000
    current_collector := "Cu"
    thickness := 0
    tab_height := 1
    tab_width := 1
    density := 0
    areal_capacity := 0 }

/-- The anode after `Electrode.__post_init__`. -/
def specAnode : Electrode :=
  match electrodePostInit rawSpecAnode with
  | .ok e => e
  | .error _ => rawSpecAnode

/-- Celgard 2325 separator: 25 µm = 0.0025 cm, porosity 0.41,
density 0.74, 10.4 cm sheets. -/
def specSeparator : Separator :=
  { material := "Celgard 2325", width := 104/10, height := 104/10,
    thickness := 25/10000, porosity := 41/100, density := 74/100 }

/-- NaPF6-in-diglyme electrolyte, density 1.15, default zero excess;
the two derived fields start at the placeholder 0. -/
def specElectrolyte : Electrolyte :=
  { material := "NaPF6 in diglyme", density := 115/100,
    volume_excess := 0, volume := 0, volume_per_ah := 0 }

/-- Pouch 11 cm x 12 cm, film 113 µm = 0.0113 cm, density 1.62. -/
def specPouch : Pouch :=
  { width := 11, height := 12, thickness := 113/10000, density := 162/100 }

/-- Al/Al tabs, 1 cm x 1 cm x 0.01 cm, before `__post_init__`. -/
def rawSpecTabs : Tab :=
  { material_cathode := "Al", material_anode := "Al",
    height := 1, width := 1, thickness := 1/100,
    density_cathode := 0, density_anode := 0 }

/-- The tabs after `Tab.__post_init__`. -/
def specTabs : Tab :=
  match tabPostInit rawSpecTabs with
  | .ok t => t
  | .error _ => rawSpecTabs

/-- The spec's concrete cell before `Cell.__post_init__`:
`n_p_ratio = 1.1`, `layers_number = 5`, default `ice = 0.93`; the six
result fields start at the placeholder 0. -/
def specCell : Cell :=
  { cathode := specCathode
    anode := specAnode
    separator := specSeparator
    electrolyte := specElectrolyte
    format := specPouch
    tabs := specTabs
    layers_number := 5
    n_p_ratio := 11/10
    ice := 93/100
    volumetric_energy_density := 0
    gravimetric_energy_density := 0
    energy := 0
    capacity := 0
    total_mass := 0
    total_volume := 0 }

/-- The cell produced by running `Cell.__post_init__` on `specCell`. -/
def specResult : Cell :=
  match cellPostInit specCell with
  | .ok c => c
  | .error _ => specCell

/-- The spec anode with its current collector renamed to `"Zn"`, a
material absent from the table. -/
def znAnode : Electrode := { specAnode with current_collector := "Zn" }
/-- The spec cell with the unknown `"Zn"` anode current collector. -/
def znCell : Cell := { specCell with anode := znAnode }
/-- The spec tabs with the cathode contact material renamed to `"Zn"`. -/
def znTab : Tab := { rawSpecTabs with material_cathode := "Zn" }
/-- The spec cell with `layers_number = 0` and every other input
unchanged (all valid and positive). -/
def zeroLayersCell : Cell := { specCell with layers_number := 0 }

/-- On the spec scenario, `Cell.__post_init__` succeeds and returns
`specResult`. -/
theorem specCell_ok : cellPostInit specCell = Except.ok specResult := by
  norm_num [cellPostInit, calculate_anode_properties, sized_anode,
    calculate_energy_density, energy_density_result, specResult, specCell,
    specCathode, specAnode, specTabs, rawSpecCathode, rawSpecAnode, rawSpecTabs,
    specSeparator, specElectrolyte, specPouch, electrodePostInit, tabPostInit,
    materials_density, superP_density, calculate_areal_capacity,
    cathode_volume, anode_volume, separator_volume, pouch_volume,
    anode_cc_volume, cathode_cc_volume, cathode_mass, anode_mass,
    separator_mass, pouch_mass, tabs_mass, total_void_volume,
    electrolyte_volume, electrolyte_mass, total_mass, total_volume,
    cathode_capacity, anode_capacity, cell_capacity, cell_energy, min_def]

/-- Evaluated form of the spec cathode: composite density `8208/6295`
(≈ 1.3039 g/cm³) and areal capacity `98496/31475` (≈ 3.1293 mAh/cm²). -/
theorem specCathode_eval :
    specCathode = { rawSpecCathode with
      density := 8208/6295, areal_capacity := 98496/31475 } := by
  norm_num [specCathode, rawSpecCathode, electrodePostInit, materials_density,
    superP_density, calculate_areal_capacity]

/-- Evaluated form of the spec anode: composite density `608/509`
(≈ 1.1945 g/cm³); areal capacity 0 at its initial zero thickness. -/
theorem specAnode_eval :
    specAnode = { rawSpecAnode with density := 608/509, areal_capacity := 0 } := by
  norm_num [specAnode, rawSpecAnode, electrodePostInit, materials_density,
    superP_density, calculate_areal_capacity]

/-- Evaluated form of the spec tabs: both contact densities resolve to
Al's 2.7 g/cm³. -/
theorem specTabs_eval :
    specTabs = { rawSpecTabs with density_cathode := 27/10, density_anode := 27/10 } := by
  norm_num [specTabs, rawSpecTabs, tabPostInit, materials_density]

/-- Fully evaluated spec-scenario result: anode thickness
`16797/1573750` cm (≈ 106.7 µm), capacity `2290032/786875` Ah
(≈ 2.910 Ah, cathode-limited), energy ≈ 9.022 Wh, volumetric energy
density ≈ 224.4 Wh/L, gravimetric ≈ 138.1 Wh/kg. -/
theorem specResult_eval :
    specResult = { specCell with
      anode := { rawSpecAnode with
        thickness := 16797/1573750, density := 608/509,
        areal_capacity := 541728/157375 },
      electrolyte := { specElectrolyte with
        volume := 185701898/19671875, volume_per_ah := 92850949/28625400 },
      total_mass := 257044594647/3934375000,
      total_volume := 3163415459/78687500,
      capacity := 2290032/786875,
      energy := 35495496/3934375,
      volumetric_energy_density := 709909920000/3163415459,
      gravimetric_energy_density := 11831832000000/85681531549 } := by
  norm_num [specResult, cellPostInit, calculate_anode_properties, sized_anode,
    calculate_energy_density, energy_density_result, specCell,
    specCathode, specAnode, specTabs, rawSpecCathode, rawSpecAnode, rawSpecTabs,
    specSeparator, specElectrolyte, specPouch, electrodePostInit, tabPostInit,
    materials_density, superP_density, calculate_areal_capacity,
    cathode_volume, anode_volume, separator_volume, pouch_volume,
    anode_cc_volume, cathode_cc_volume, cathode_mass, anode_mass,
    separator_mass, pouch_mass, tabs_mass, total_void_volume,
    electrolyte_volume, electrolyte_mass, total_mass, total_volume,
    cathode_capacity, anode_capacity, cell_capacity, cell_energy, min_def]

/-- Inversion principle for a successful `Cell.__post_init__` run: both
current-collector materials resolve in the table, no division by zero
occurred, and the resulting cell is `energy_density_result` applied to
the anode-sized cell. -/
theorem cellPostInit_ok_elim (c₀ c : Cell) (h : cellPostInit c₀ = Except.ok c) :
    ∃ dcc dacc,
      materials_density c₀.cathode.current_collector = some dcc ∧
      materials_density c₀.anode.current_collector = some dacc ∧
      c₀.anode.density * c₀.anode.capacity * c₀.anode.mass_ratio_am ≠ 0 ∧
      cell_capacity (sized_anode c₀) ≠ 0 ∧
      total_volume (sized_anode c₀) ≠ 0 ∧
      total_mass (sized_anode c₀) dcc dacc ≠ 0 ∧
      c = energy_density_result (sized_anode c₀) dcc dacc := by
  unfold cellPostInit at h
  split at h
  · exact absurd h (by simp)
  · rename_i c1 heq
    unfold calculate_anode_properties at heq
    split at heq
    · exact absurd heq (by simp)
    · rename_i hd
      rw [Except.ok.injEq] at heq
      subst heq
      unfold calculate_energy_density at h
      split at h
      · exact absurd h (by simp)
      · rename_i dcc hcc
        split at h
        · exact absurd h (by simp)
        · rename_i dacc hacc
          split at h
          · exact absurd h (by simp)
          · split at h
            · exact absurd h (by simp)
            · split at h
              · exact absurd h (by simp)
              · rename_i hcap hvol hmass
                rw [Except.ok.injEq] at h
                exact ⟨dcc, dacc, hcc, hacc, hd, hcap, hvol, hmass, h.symm⟩

/-- C1.  Anode sizing is inverse-consistent: for every successfully
constructed Cell whose anode has nonzero density, nonzero specific
capacity and nonzero active-material mass fraction, the anode areal
capacity recomputed after the thickness solve equals
`cathode.areal_capacity * n_p_ratio` exactly. -/
theorem c1_anode_sizing_inverse (c₀ c : Cell) (h : cellPostInit c₀ = Except.ok c)
    (h1 : c₀.anode.density ≠ 0) (h2 : c₀.anode.capacity ≠ 0)
    (h3 : c₀.anode.mass_ratio_am ≠ 0) :
    c.anode.areal_capacity = c₀.cathode.areal_capacity * c₀.n_p_ratio := by
  obtain ⟨dcc, dacc, -, -, -, -, -, -, rfl⟩ := cellPostInit_ok_elim c₀ c h
  simp only [energy_density_result, sized_anode, calculate_areal_capacity]
  field_simp
  ring

/-- Witness for C1: the spec scenario cell, whose anode parameters are
nonzero, reproduces `cathode.areal_capacity * 1.1`. -/
theorem c1_witness :
    specResult.anode.areal_capacity =
      specCell.cathode.areal_capacity * specCell.n_p_ratio :=
  c1_anode_sizing_inverse specCell specResult specCell_ok
    (by norm_num [specCell, specAnode, rawSpecAnode, electrodePostInit,
      materials_density, superP_density, calculate_areal_capacity])
    (by norm_num [specCell, specAnode, rawSpecAnode, electrodePostInit,
      materials_density, superP_density, calculate_areal_capacity])
    (by norm_num [specCell, specAnode, rawSpecAnode, electrodePostInit,
      materials_density, superP_density, calculate_areal_capacity])

/-- C2.  For every successfully constructed Cell, the stored capacity
equals `min(cathode_capacity, anode_capacity) * ice` (each raw capacity
being `mass * mass_ratio['am'] * specific_capacity / 1000`); with
`ice ≤ 1` and non-negative inputs the capacity is at most the smaller
raw capacity, and with `ice > 0` it vanishes only when the smaller raw
capacity vanishes. -/
theorem c2_capacity_limiting (c₀ c : Cell) (h : cellPostInit c₀ = Except.ok c)
    (hice1 : c₀.ice ≤ 1) (hice0 : 0 < c₀.ice)
    (hcw : 0 ≤ c₀.cathode.width) (hch : 0 ≤ c₀.cathode.height)
    (hct : 0 ≤ c₀.cathode.thickness) (hcd : 0 ≤ c₀.cathode.density)
    (hcam : 0 ≤ c₀.cathode.mass_ratio_am) (hccap : 0 ≤ c₀.cathode.capacity)
    (hcar : 0 ≤ c₀.cathode.areal_capacity) (hnp : 0 ≤ c₀.n_p_ratio)
    (haw : 0 ≤ c₀.anode.width) (hah : 0 ≤ c₀.anode.height)
    (had : 0 ≤ c₀.anode.density) (haam : 0 ≤ c₀.anode.mass_ratio_am)
    (hacap : 0 ≤ c₀.anode.capacity) :
    c.capacity = min (cathode_capacity c) (anode_capacity c) * c.ice ∧
    c.capacity ≤ min (cathode_capacity c) (anode_capacity c) ∧
    (c.capacity = 0 → min (cathode_capacity c) (anode_capacity c) = 0) := by
  obtain ⟨dcc, dacc, -, -, -, -, -, -, rfl⟩ := cellPostInit_ok_elim c₀ c h
  have hpc : cathode_capacity (energy_density_result (sized_anode c₀) dcc dacc) =
      cathode_capacity (sized_anode c₀) := rfl
  have hpa : anode_capacity (energy_density_result (sized_anode c₀) dcc dacc) =
      anode_capacity (sized_anode c₀) := rfl
  have hcapeq : (energy_density_result (sized_anode c₀) dcc dacc).capacity =
      min (cathode_capacity (sized_anode c₀)) (anode_capacity (sized_anode c₀)) *
        c₀.ice := rfl
  have hcc : 0 ≤ cathode_capacity (sized_anode c₀) := by
    simp only [cathode_capacity, cathode_mass, cathode_volume, sized_anode]
    positivity
  have hac : 0 ≤ anode_capacity (sized_anode c₀) := by
    simp only [anode_capacity, anode_mass, anode_volume, sized_anode]
    positivity
  refine ⟨by rw [hcapeq, hpc, hpa]; rfl, ?_, ?_⟩
  · rw [hcapeq, hpc, hpa]
    exact mul_le_of_le_one_right (le_min hcc hac) hice1
  · intro h0
    rw [hcapeq] at h0
    rw [hpc, hpa]
    rcases mul_eq_zero.mp h0 with h0 | h0
    · exact h0
    · exact absurd h0 hice0.ne'

/-- Witness for C2 at the spec scenario cell. -/
theorem c2_witness :
    specResult.capacity =
      min (cathode_capacity specResult) (anode_capacity specResult) * specResult.ice ∧
    specResult.capacity ≤ min (cathode_capacity specResult) (anode_capacity specResult) ∧
    (specResult.capacity = 0 →
      min (cathode_capacity specResult) (anode_capacity specResult) = 0) :=
  c2_capacity_limiting specCell specResult specCell_ok
    (by norm_num [specCell]) (by norm_num [specCell])
    (by norm_num [specCell, specCathode_eval, rawSpecCathode])
    (by norm_num [specCell, specCathode_eval, rawSpecCathode])
    (by norm_num [specCell, specCathode_eval, rawSpecCathode])
    (by norm_num [specCell, specCathode_eval, rawSpecCathode])
    (by norm_num [specCell, specCathode_eval, rawSpecCathode])
    (by norm_num [specCell, specCathode_eval, rawSpecCathode])
    (by norm_num [specCell, specCathode_eval, rawSpecCathode])
    (by norm_num [specCell])
    (by norm_num [specCell, specAnode_eval, rawSpecAnode])
    (by norm_num [specCell, specAnode_eval, rawSpecAnode])
    (by norm_num [specCell, specAnode_eval, rawSpecAnode])
    (by norm_num [specCell, specAnode_eval, rawSpecAnode])
    (by norm_num [specCell, specAnode_eval, rawSpecAnode])

/-- C3.  For every successfully constructed Cell, the stored energy is
`capacity * (cathode.voltage - anode.voltage)`; in the spec's concrete
scenario (cathode 3.2 V, anode 0.1 V) construction succeeds,
`energy = capacity * (3.2 - 0.1)`, and both energy densities are
strictly positive (every ℚ value is finite). -/
theorem c3_energy_voltage (c₀ c : Cell) (h : cellPostInit c₀ = Except.ok c) :
    c.energy = c.capacity * (c₀.cathode.voltage - c₀.anode.voltage) ∧
    cellPostInit specCell = Except.ok specResult ∧
    specResult.energy = specResult.capacity * (32/10 - 1/10) ∧
    0 < specResult.volumetric_energy_density ∧
    0 < specResult.gravimetric_energy_density := by
  refine ⟨?_, specCell_ok, by norm_num [specResult_eval],
    by norm_num [specResult_eval], by norm_num [specResult_eval]⟩
  obtain ⟨dcc, dacc, -, -, -, -, -, -, rfl⟩ := cellPostInit_ok_elim c₀ c h
  rfl

/-- Witness for C3 at the spec scenario cell. -/
theorem c3_witness :
    specResult.energy =
      specResult.capacity * (specCell.cathode.voltage - specCell.anode.voltage) ∧
    cellPostInit specCell = Except.ok specResult ∧
    specResult.energy = specResult.capacity * (32/10 - 1/10) ∧
    0 < specResult.volumetric_energy_density ∧
    0 < specResult.gravimetric_energy_density :=
  c3_energy_voltage specCell specResult specCell_ok

/-- C4.  For every successfully constructed Cell, the stored total
volume equals the six component volumes plus the electrolyte's net
contribution `electrolyte.volume - total_void_volume`, where the total
void volume is the porosity-weighted sum of the cathode, anode and
separator volumes: void space is never counted twice. -/
theorem c4_total_volume_accounting (c₀ c : Cell) (h : cellPostInit c₀ = Except.ok c) :
    c.total_volume = cathode_volume c + anode_volume c + separator_volume c +
      pouch_volume c + anode_cc_volume c + cathode_cc_volume c +
      (c.electrolyte.volume - total_void_volume c) ∧
    total_void_volume c = cathode_volume c * c.cathode.porosity +
      anode_volume c * c.anode.porosity +
      separator_volume c * c.separator.porosity := by
  obtain ⟨dcc, dacc, -, -, -, -, -, -, rfl⟩ := cellPostInit_ok_elim c₀ c h
  refine ⟨?_, rfl⟩
  show total_volume (sized_anode c₀) =
    cathode_volume (sized_anode c₀) + anode_volume (sized_anode c₀) +
      separator_volume (sized_anode c₀) + pouch_volume (sized_anode c₀) +
      anode_cc_volume (sized_anode c₀) + cathode_cc_volume (sized_anode c₀) +
      (electrolyte_volume (sized_anode c₀) - total_void_volume (sized_anode c₀))
  unfold total_volume
  ring

/-- Witness for C4 at the spec scenario cell. -/
theorem c4_witness :
    specResult.total_volume = cathode_volume specResult + anode_volume specResult +
      separator_volume specResult + pouch_volume specResult +
      anode_cc_volume specResult + cathode_cc_volume specResult +
      (specResult.electrolyte.volume - total_void_volume specResult) ∧
    total_void_volume specResult =
      cathode_volume specResult * specResult.cathode.porosity +
      anode_volume specResult * specResult.anode.porosity +
      separator_volume specResult * specResult.separator.porosity :=
  c4_total_volume_accounting specCell specResult specCell_ok




/-- Counterexample to C5 as stated: with the unknown current-collector
name `"Zn"`, the failure does NOT happen before any numeric derivation —
the anode-sizing stage completes, overwriting the anode thickness with a
computed value, and only the later aggregation stage fails (with a
`KeyError`, since the source defines no `UnknownMaterialError`). -/
theorem c5_counterexample :
    calculate_anode_properties znCell = Except.ok (sized_anode znCell) ∧
    (sized_anode znCell).anode.thickness ≠ znCell.anode.thickness ∧
    calculate_energy_density (sized_anode znCell) =
      Except.error (PyErr.keyError ("Zn")) := by
  refine ⟨?_, ?_, ?_⟩
  · norm_num [calculate_anode_properties, znCell, znAnode, specAnode_eval,
      rawSpecAnode, specCell]
  · norm_num [sized_anode, calculate_areal_capacity, znCell, znAnode,
      specAnode_eval, rawSpecAnode, specCell, specCathode_eval, rawSpecCathode]
  · have e1 : materials_density (sized_anode znCell).cathode.current_collector =
        some (27/10) := by
      norm_num [sized_anode, znCell, znAnode, specCell, specCathode_eval,
        rawSpecCathode, materials_density]
    have e2 : materials_density (sized_anode znCell).anode.current_collector =
        none := by rfl
    unfold calculate_energy_density
    rw [e1, e2]
    rfl

/-- C5 as amended.  A lookup of an absent material name does fail, but
with the interpreter's own errors and not before all numeric
derivation: Tab construction fails with `TypeError` (subscripting the
`None` from `dict.get`), and a Cell whose anode names an unknown
current-collector material fails with `KeyError` during the aggregation
stage, after the anode-sizing derivation has already succeeded. -/
theorem c5_amended_lookup_failure (t : Tab) (c : Cell)
    (ht : materials_density t.material_cathode = none)
    (hacc : materials_density c.anode.current_collector = none)
    (hccc : (materials_density c.cathode.current_collector).isSome)
    (hd : c.anode.density * c.anode.capacity * c.anode.mass_ratio_am ≠ 0) :
    tabPostInit t = Except.error PyErr.typeError ∧
    cellPostInit c = Except.error (PyErr.keyError c.anode.current_collector) ∧
    calculate_anode_properties c = Except.ok (sized_anode c) := by
  have h1 : calculate_anode_properties c = Except.ok (sized_anode c) := by
    unfold calculate_anode_properties
    rw [if_neg hd]
  refine ⟨?_, ?_, h1⟩
  · unfold tabPostInit
    rw [ht]
  · unfold cellPostInit
    rw [h1]
    show calculate_energy_density (sized_anode c) =
      Except.error (PyErr.keyError c.anode.current_collector)
    obtain ⟨dcc, hdcc⟩ := Option.isSome_iff_exists.mp hccc
    have e1 : materials_density (sized_anode c).cathode.current_collector =
        some dcc := hdcc
    have e2 : materials_density (sized_anode c).anode.current_collector =
        none := hacc
    unfold calculate_energy_density
    rw [e1, e2]
    rfl

/-- Witness for C5 (amended) at the concrete `"Zn"` inputs. -/
theorem c5_witness :
    tabPostInit znTab = Except.error PyErr.typeError ∧
    cellPostInit znCell = Except.error (PyErr.keyError znCell.anode.current_collector) ∧
    calculate_anode_properties znCell = Except.ok (sized_anode znCell) :=
  c5_amended_lookup_failure znTab znCell rfl (by rfl)
    (by norm_num [znCell, specCell, specCathode_eval, rawSpecCathode,
      materials_density])
    (by norm_num [znCell, znAnode, specAnode_eval, rawSpecAnode, specCell])


/-- Counterexample to C7 as stated: the zero-layers construction does
NOT complete.  With no layers the cathode mass is zero, so the cell
capacity is zero and the `volume / capacity` division at
`volume_per_ah` raises `ZeroDivisionError`. -/
theorem c7_counterexample :
    cellPostInit zeroLayersCell = Except.error PyErr.zeroDivisionError := by
  norm_num [zeroLayersCell, cellPostInit, calculate_anode_properties, sized_anode,
    calculate_energy_density, specCell,
    specCathode, specAnode, specTabs, rawSpecCathode, rawSpecAnode, rawSpecTabs,
    specSeparator, specElectrolyte, specPouch, electrodePostInit, tabPostInit,
    materials_density, superP_density, calculate_areal_capacity,
    cathode_volume, anode_volume, separator_volume, pouch_volume,
    anode_cc_volume, cathode_cc_volume, cathode_mass, anode_mass,
    separator_mass, pouch_mass, tabs_mass, total_void_volume,
    electrolyte_volume, electrolyte_mass, total_mass, total_volume,
    cathode_capacity, anode_capacity, cell_capacity, cell_energy, min_def]

/-- C7 as amended.  With `layers_number = 0` and all other inputs valid
and positive, the cathode and separator stack volume terms are zero
while the pouch volume, the extra anode layer (`2 * w * h * thickness`
with the sized thickness), the extra anode current-collector term and
the electrolyte fill volume are all strictly positive — but the
construction then fails with `ZeroDivisionError` at the
`volume / capacity` step, because the zero cathode mass makes the cell
capacity zero. -/
theorem c7_amended_zero_layers (c : Cell) (hl : c.layers_number = 0)
    (hcar : 0 < c.cathode.areal_capacity) (hnp : 0 < c.n_p_ratio)
    (had : 0 < c.anode.density) (hacap : 0 < c.anode.capacity)
    (haam : 0 < c.anode.mass_ratio_am)
    (haw : 0 < c.anode.width) (hah : 0 < c.anode.height)
    (hap : 0 < c.anode.porosity) (hact : 0 < c.anode.cc_thickness)
    (hath : 0 < c.anode.tab_height) (hatw : 0 < c.anode.tab_width)
    (hpw : 0 < c.format.width) (hph : 0 < c.format.height)
    (hpt : 0 < c.format.thickness)
    (hex : 0 ≤ c.electrolyte.volume_excess)
    (hccl : (materials_density c.cathode.current_collector).isSome)
    (hacl : (materials_density c.anode.current_collector).isSome) :
    cathode_volume (sized_anode c) = 0 ∧
    separator_volume (sized_anode c) = 0 ∧
    0 < pouch_volume (sized_anode c) ∧
    anode_volume (sized_anode c) =
      2 * c.anode.width * c.anode.height * (sized_anode c).anode.thickness ∧
    0 < anode_volume (sized_anode c) ∧
    0 < anode_cc_volume (sized_anode c) ∧
    0 < electrolyte_volume (sized_anode c) ∧
    cellPostInit c = Except.error PyErr.zeroDivisionError := by
  have hl' : ((sized_anode c).layers_number : ℚ) = 0 := by
    show ((c.layers_number : ℕ) : ℚ) = 0
    exact_mod_cast hl
  have h1 : cathode_volume (sized_anode c) = 0 := by
    unfold cathode_volume
    rw [hl']
    ring
  have h2 : separator_volume (sized_anode c) = 0 := by
    unfold separator_volume
    rw [hl']
    ring
  have hth : 0 < (sized_anode c).anode.thickness := by
    show 0 < c.cathode.areal_capacity * c.n_p_ratio /
      (c.anode.density * c.anode.capacity * c.anode.mass_ratio_am)
    positivity
  have hav : 0 < anode_volume (sized_anode c) := by
    unfold anode_volume
    rw [hl']
    have e1 : (sized_anode c).anode.width = c.anode.width := rfl
    have e2 : (sized_anode c).anode.height = c.anode.height := rfl
    rw [e1, e2]
    nlinarith [mul_pos (mul_pos haw hah) hth]
  have haveq : anode_volume (sized_anode c) =
      2 * c.anode.width * c.anode.height * (sized_anode c).anode.thickness := by
    unfold anode_volume
    rw [hl']
    have e1 : (sized_anode c).anode.width = c.anode.width := rfl
    have e2 : (sized_anode c).anode.height = c.anode.height := rfl
    rw [e1, e2]
    ring
  have haccv : 0 < anode_cc_volume (sized_anode c) := by
    unfold anode_cc_volume
    rw [hl']
    have e1 : (sized_anode c).anode.width = c.anode.width := rfl
    have e2 : (sized_anode c).anode.height = c.anode.height := rfl
    have e3 : (sized_anode c).anode.tab_height = c.anode.tab_height := rfl
    have e4 : (sized_anode c).anode.tab_width = c.anode.tab_width := rfl
    have e5 : (sized_anode c).anode.cc_thickness = c.anode.cc_thickness := rfl
    rw [e1, e2, e3, e4, e5]
    positivity
  have hev : 0 < electrolyte_volume (sized_anode c) := by
    unfold electrolyte_volume total_void_volume
    rw [h1, h2]
    have e1 : (sized_anode c).anode.porosity = c.anode.porosity := rfl
    have e2 : (sized_anode c).electrolyte.volume_excess =
        c.electrolyte.volume_excess := rfl
    rw [e1, e2]
    have key : 0 < anode_volume (sized_anode c) * c.anode.porosity *
        (1 + c.electrolyte.volume_excess) :=
      mul_pos (mul_pos hav hap) (by linarith)
    nlinarith [key]
  have hcap0 : cell_capacity (sized_anode c) = 0 := by
    have hccap0 : cathode_capacity (sized_anode c) = 0 := by
      unfold cathode_capacity cathode_mass
      rw [h1]
      ring
    have hacap0 : 0 ≤ anode_capacity (sized_anode c) := by
      unfold anode_capacity anode_mass
      have e1 : (sized_anode c).anode.density = c.anode.density := rfl
      have e2 : (sized_anode c).anode.mass_ratio_am = c.anode.mass_ratio_am := rfl
      have e3 : (sized_anode c).anode.capacity = c.anode.capacity := rfl
      rw [e1, e2, e3]
      positivity
    unfold cell_capacity
    rw [hccap0, min_eq_left hacap0, zero_mul]
  refine ⟨h1, h2, ?_, haveq, hav, haccv, hev, ?_⟩
  · unfold pouch_volume
    have e1 : (sized_anode c).format = c.format := rfl
    rw [e1]
    positivity
  · have hd : c.anode.density * c.anode.capacity * c.anode.mass_ratio_am ≠ 0 :=
      (mul_pos (mul_pos had hacap) haam).ne'
    have hstage1 : calculate_anode_properties c = Except.ok (sized_anode c) := by
      unfold calculate_anode_properties
      rw [if_neg hd]
    unfold cellPostInit
    rw [hstage1]
    show calculate_energy_density (sized_anode c) =
      Except.error PyErr.zeroDivisionError
    obtain ⟨dcc, hdcc⟩ := Option.isSome_iff_exists.mp hccl
    obtain ⟨dacc, hdacc⟩ := Option.isSome_iff_exists.mp hacl
    have e1 : materials_density (sized_anode c).cathode.current_collector =
        some dcc := hdcc
    have e2 : materials_density (sized_anode c).anode.current_collector =
        some dacc := hdacc
    unfold calculate_energy_density
    rw [e1, e2]
    simp only [hcap0, if_pos]

/-- Witness for C7 (amended) at the concrete zero-layers cell. -/
theorem c7_witness :
    cathode_volume (sized_anode zeroLayersCell) = 0 ∧
    separator_volume (sized_anode zeroLayersCell) = 0 ∧
    0 < pouch_volume (sized_anode zeroLayersCell) ∧
    anode_volume (sized_anode zeroLayersCell) =
      2 * zeroLayersCell.anode.width * zeroLayersCell.anode.height *
        (sized_anode zeroLayersCell).anode.thickness ∧
    0 < anode_volume (sized_anode zeroLayersCell) ∧
    0 < anode_cc_volume (sized_anode zeroLayersCell) ∧
    0 < electrolyte_volume (sized_anode zeroLayersCell) ∧
    cellPostInit zeroLayersCell = Except.error PyErr.zeroDivisionError :=
  c7_amended_zero_layers zeroLayersCell rfl
    (by norm_num [zeroLayersCell, specCell, specCathode_eval, rawSpecCathode])
    (by norm_num [zeroLayersCell, specCell])
    (by norm_num [zeroLayersCell, specCell, specAnode_eval, rawSpecAnode])
    (by norm_num [zeroLayersCell, specCell, specAnode_eval, rawSpecAnode])
    (by norm_num [zeroLayersCell, specCell, specAnode_eval, rawSpecAnode])
    (by norm_num [zeroLayersCell, specCell, specAnode_eval, rawSpecAnode])
    (by norm_num [zeroLayersCell, specCell, specAnode_eval, rawSpecAnode])
    (by norm_num [zeroLayersCell, specCell, specAnode_eval, rawSpecAnode])
    (by norm_num [zeroLayersCell, specCell, specAnode_eval, rawSpecAnode])
    (by norm_num [zeroLayersCell, specCell, specAnode_eval, rawSpecAnode])
    (by norm_num [zeroLayersCell, specCell, specAnode_eval, rawSpecAnode])
    (by norm_num [zeroLayersCell, specCell, specPouch])
    (by norm_num [zeroLayersCell, specCell, specPouch])
    (by norm_num [zeroLayersCell, specCell, specPouch])
    (by norm_num [zeroLayersCell, specCell, specElectrolyte])
    (by norm_num [zeroLayersCell, specCell, specCathode_eval, rawSpecCathode,
      materials_density])
    (by norm_num [zeroLayersCell, specCell, specAnode_eval, rawSpecAnode,
      materials_density])

/-- C8.  Cell construction writes only the anode's thickness and areal
capacity, the electrolyte's volume and volume-per-Ah, and the Cell's own
six computed fields: the cathode, separator, pouch and tabs records, the
layering/ratio parameters, every other anode field and every other
electrolyte field are unchanged. -/
theorem c8_frame (c₀ c : Cell) (h : cellPostInit c₀ = Except.ok c) :
    c.cathode = c₀.cathode ∧
    c.separator = c₀.separator ∧
    c.format = c₀.format ∧
    c.tabs = c₀.tabs ∧
    c.layers_number = c₀.layers_number ∧
    c.n_p_ratio = c₀.n_p_ratio ∧
    c.ice = c₀.ice ∧
    c.anode.active_material = c₀.anode.active_material ∧
    c.anode.mass_ratio_am = c₀.anode.mass_ratio_am ∧
    c.anode.mass_ratio_carbon = c₀.anode.mass_ratio_carbon ∧
    c.anode.mass_ratio_binder = c₀.anode.mass_ratio_binder ∧
    c.anode.binder = c₀.anode.binder ∧
    c.anode.porosity = c₀.anode.porosity ∧
    c.anode.voltage = c₀.anode.voltage ∧
    c.anode.capacity = c₀.anode.capacity ∧
    c.anode.density_am = c₀.anode.density_am ∧
    c.anode.width = c₀.anode.width ∧
    c.anode.height = c₀.anode.height ∧
    c.anode.cc_thickness = c₀.anode.cc_thickness ∧
    c.anode.current_collector = c₀.anode.current_collector ∧
    c.anode.tab_height = c₀.anode.tab_height ∧
    c.anode.tab_width = c₀.anode.tab_width ∧
    c.anode.density = c₀.anode.density ∧
    c.electrolyte.material = c₀.electrolyte.material ∧
    c.electrolyte.density = c₀.electrolyte.density ∧
    c.electrolyte.volume_excess = c₀.electrolyte.volume_excess := by
  obtain ⟨dcc, dacc, -, -, -, -, -, -, rfl⟩ := cellPostInit_ok_elim c₀ c h
  exact ⟨rfl, rfl, rfl, rfl, rfl, rfl, rfl, rfl, rfl, rfl, rfl, rfl, rfl,
    rfl, rfl, rfl, rfl, rfl, rfl, rfl, rfl, rfl, rfl, rfl, rfl, rfl⟩

/-- Witness for C8 at the spec scenario cell. -/
theorem c8_witness :
    specResult.cathode = specCell.cathode ∧
    specResult.separator = specCell.separator ∧
    specResult.format = specCell.format ∧
    specResult.tabs = specCell.tabs ∧
    specResult.layers_number = specCell.layers_number ∧
    specResult.n_p_ratio = specCell.n_p_ratio ∧
    specResult.ice = specCell.ice ∧
    specResult.anode.active_material = specCell.anode.active_material ∧
    specResult.anode.mass_ratio_am = specCell.anode.mass_ratio_am ∧
    specResult.anode.mass_ratio_carbon = specCell.anode.mass_ratio_carbon ∧
    specResult.anode.mass_ratio_binder = specCell.anode.mass_ratio_binder ∧
    specResult.anode.binder = specCell.anode.binder ∧
    specResult.anode.porosity = specCell.anode.porosity ∧
    specResult.anode.voltage = specCell.anode.voltage ∧
    specResult.anode.capacity = specCell.anode.capacity ∧
    specResult.anode.density_am = specCell.anode.density_am ∧
    specResult.anode.width = specCell.anode.width ∧
    specResult.anode.height = specCell.anode.height ∧
    specResult.anode.cc_thickness = specCell.anode.cc_thickness ∧
    specResult.anode.current_collector = specCell.anode.current_collector ∧
    specResult.anode.tab_height = specCell.anode.tab_height ∧
    specResult.anode.tab_width = specCell.anode.tab_width ∧
    specResult.anode.density = specCell.anode.density ∧
    specResult.electrolyte.material = specCell.electrolyte.material ∧
    specResult.electrolyte.density = specCell.electrolyte.density ∧
    specResult.electrolyte.volume_excess = specCell.electrolyte.volume_excess :=
  c8_frame specCell specResult specCell_ok

/-- C9.  The computed results are independent of the anode's initial
coating thickness and of the areal capacity derived from it: overwriting
those two input fields with arbitrary values leaves the entire
`Cell.__post_init__` result unchanged, because construction
unconditionally overwrites the anode thickness before using it. -/
theorem c9_thickness_independence (c₀ : Cell) (t a : ℚ) :
    cellPostInit
      { c₀ with anode := { c₀.anode with thickness := t, areal_capacity := a } } =
    cellPostInit c₀ := rfl

/-- C10.  When `volume_excess = 0` (the dataclass default) the
electrolyte fill volume set during construction equals the total void
volume exactly, so the electrolyte's net term cancels and the total
volume is exactly the sum of the six component volumes. -/
theorem c10_zero_excess (c₀ c : Cell) (h : cellPostInit c₀ = Except.ok c)
    (hx : c₀.electrolyte.volume_excess = 0) :
    c.electrolyte.volume = total_void_volume c ∧
    c.total_volume = cathode_volume c + anode_volume c + separator_volume c +
      pouch_volume c + anode_cc_volume c + cathode_cc_volume c := by
  obtain ⟨dcc, dacc, -, -, -, -, -, -, rfl⟩ := cellPostInit_ok_elim c₀ c h
  have hx' : (sized_anode c₀).electrolyte.volume_excess = 0 := hx
  constructor
  · show electrolyte_volume (sized_anode c₀) = total_void_volume (sized_anode c₀)
    unfold electrolyte_volume
    rw [hx']
    ring
  · show total_volume (sized_anode c₀) =
      cathode_volume (sized_anode c₀) + anode_volume (sized_anode c₀) +
        separator_volume (sized_anode c₀) + pouch_volume (sized_anode c₀) +
        anode_cc_volume (sized_anode c₀) + cathode_cc_volume (sized_anode c₀)
    unfold total_volume electrolyte_volume
    rw [hx']
    ring

/-- Witness for C10 at the spec scenario cell (whose electrolyte uses
the default zero excess). -/
theorem c10_witness :
    specResult.electrolyte.volume = total_void_volume specResult ∧
    specResult.total_volume = cathode_volume specResult + anode_volume specResult +
      separator_volume specResult + pouch_volume specResult +
      anode_cc_volume specResult + cathode_cc_volume specResult :=
  c10_zero_excess specCell specResult specCell_ok
    (by norm_num [specCell, specElectrolyte])

/-- A convex combination with weights `v_i / (v1+v2+v3)` lies between
the least and the greatest of the three combined values. -/
theorem convex_div_bounds (d1 d2 d3 v1 v2 v3 : ℚ)
    (h1 : 0 ≤ v1) (h2 : 0 ≤ v2) (h3 : 0 ≤ v3) (hs : 0 < v1 + v2 + v3) :
    min d1 (min d2 d3) ≤
      v1 / (v1 + v2 + v3) * d1 + v2 / (v1 + v2 + v3) * d2 +
        v3 / (v1 + v2 + v3) * d3 ∧
    v1 / (v1 + v2 + v3) * d1 + v2 / (v1 + v2 + v3) * d2 +
        v3 / (v1 + v2 + v3) * d3 ≤ max d1 (max d2 d3) := by
  have hw1 : 0 ≤ v1 / (v1 + v2 + v3) := div_nonneg h1 hs.le
  have hw2 : 0 ≤ v2 / (v1 + v2 + v3) := div_nonneg h2 hs.le
  have hw3 : 0 ≤ v3 / (v1 + v2 + v3) := div_nonneg h3 hs.le
  have hwsum : v1 / (v1 + v2 + v3) + v2 / (v1 + v2 + v3) + v3 / (v1 + v2 + v3) = 1 := by
    field_simp
  have hmn1 : min d1 (min d2 d3) ≤ d1 := min_le_left _ _
  have hmn2 : min d1 (min d2 d3) ≤ d2 := le_trans (min_le_right _ _) (min_le_left _ _)
  have hmn3 : min d1 (min d2 d3) ≤ d3 := le_trans (min_le_right _ _) (min_le_right _ _)
  have hmx1 : d1 ≤ max d1 (max d2 d3) := le_max_left _ _
  have hmx2 : d2 ≤ max d1 (max d2 d3) := le_trans (le_max_left _ _) (le_max_right _ _)
  have hmx3 : d3 ≤ max d1 (max d2 d3) := le_trans (le_max_right _ _) (le_max_right _ _)
  constructor
  · have key : v1 / (v1 + v2 + v3) * d1 + v2 / (v1 + v2 + v3) * d2 +
        v3 / (v1 + v2 + v3) * d3 - min d1 (min d2 d3) =
        v1 / (v1 + v2 + v3) * (d1 - min d1 (min d2 d3)) +
        v2 / (v1 + v2 + v3) * (d2 - min d1 (min d2 d3)) +
        v3 / (v1 + v2 + v3) * (d3 - min d1 (min d2 d3)) := by
      linear_combination min d1 (min d2 d3) * hwsum
    linarith [mul_nonneg hw1 (sub_nonneg.mpr hmn1),
      mul_nonneg hw2 (sub_nonneg.mpr hmn2), mul_nonneg hw3 (sub_nonneg.mpr hmn3)]
  · have key : max d1 (max d2 d3) - (v1 / (v1 + v2 + v3) * d1 +
        v2 / (v1 + v2 + v3) * d2 + v3 / (v1 + v2 + v3) * d3) =
        v1 / (v1 + v2 + v3) * (max d1 (max d2 d3) - d1) +
        v2 / (v1 + v2 + v3) * (max d1 (max d2 d3) - d2) +
        v3 / (v1 + v2 + v3) * (max d1 (max d2 d3) - d3) := by
      linear_combination (- max d1 (max d2 d3)) * hwsum
    linarith [mul_nonneg hw1 (sub_nonneg.mpr hmx1),
      mul_nonneg hw2 (sub_nonneg.mpr hmx2), mul_nonneg hw3 (sub_nonneg.mpr hmx3)]

/-- Scaling a value lying in `[mn, mx]` by an arbitrary factor `k` keeps
it between `k*mn` and `k*mx`, in whichever order those lie. -/
theorem mul_between (k mn mx x : ℚ) (hmn : mn ≤ x) (hmx : x ≤ mx) :
    min (k * mn) (k * mx) ≤ k * x ∧ k * x ≤ max (k * mn) (k * mx) := by
  rcases le_total 0 k with hk | hk
  · exact ⟨le_trans (min_le_left _ _) (mul_le_mul_of_nonneg_left hmn hk),
      le_trans (mul_le_mul_of_nonneg_left hmx hk) (le_max_right _ _)⟩
  · exact ⟨le_trans (min_le_right _ _) (mul_le_mul_of_nonpos_left hmx hk),
      le_trans (mul_le_mul_of_nonpos_left hmn hk) (le_max_left _ _)⟩

/-- C6.  For every Electrode whose mass-ratio triple is non-negative and
sums to 1 and whose three constituent densities (active material, SuperP
carbon, binder — the latter resolved from the table) are positive,
`__post_init__` succeeds and the composite density lies between
`(1 - porosity) * min(density_i)` and `(1 - porosity) * max(density_i)`
(endpoints taken in either order, covering any porosity). -/
theorem c6_composite_density_bounds (e : Electrode) (db : ℚ)
    (hb : materials_density e.binder = some db)
    (h1 : 0 ≤ e.mass_ratio_am) (h2 : 0 ≤ e.mass_ratio_carbon)
    (h3 : 0 ≤ e.mass_ratio_binder)
    (hsum : e.mass_ratio_am + e.mass_ratio_carbon + e.mass_ratio_binder = 1)
    (hdam : 0 < e.density_am) (hdb : 0 < db) :
    ∃ e2, electrodePostInit e = Except.ok e2 ∧
      min ((1 - e.porosity) * min e.density_am (min superP_density db))
          ((1 - e.porosity) * max e.density_am (max superP_density db)) ≤
        e2.density ∧
      e2.density ≤
        max ((1 - e.porosity) * min e.density_am (min superP_density db))
            ((1 - e.porosity) * max e.density_am (max superP_density db)) := by
  have hsp : (0:ℚ) < superP_density := by norm_num [superP_density]
  have hv1 : 0 ≤ e.mass_ratio_am / e.density_am := div_nonneg h1 hdam.le
  have hv2 : 0 ≤ e.mass_ratio_carbon / superP_density := div_nonneg h2 hsp.le
  have hv3 : 0 ≤ e.mass_ratio_binder / db := div_nonneg h3 hdb.le
  have hpos : 0 < e.mass_ratio_am ∨ 0 < e.mass_ratio_carbon ∨
      0 < e.mass_ratio_binder := by
    by_contra hcon
    push_neg at hcon
    linarith [hcon.1, hcon.2.1, hcon.2.2]
  have hs : 0 < e.mass_ratio_am / e.density_am +
      e.mass_ratio_carbon / superP_density + e.mass_ratio_binder / db := by
    rcases hpos with hp | hp | hp
    · linarith [div_pos hp hdam]
    · linarith [div_pos hp hsp]
    · linarith [div_pos hp hdb]
  obtain ⟨hlo, hhi⟩ := convex_div_bounds e.density_am superP_density db
    (e.mass_ratio_am / e.density_am) (e.mass_ratio_carbon / superP_density)
    (e.mass_ratio_binder / db) hv1 hv2 hv3 hs
  obtain ⟨hlo2, hhi2⟩ := mul_between (1 - e.porosity)
    (min e.density_am (min superP_density db))
    (max e.density_am (max superP_density db)) _ hlo hhi
  simp only [electrodePostInit, hb]
  rw [if_neg hdam.ne', if_neg hdb.ne', if_neg hs.ne']
  exact ⟨_, rfl, hlo2, hhi2⟩

/-- Witness for C6: the spec cathode formulation (Prussian Blue 1.8,
SuperP 1.9, CMC+SBR 1.28, mass split 0.8/0.1/0.1). -/
theorem c6_witness :
    ∃ e2, electrodePostInit rawSpecCathode = Except.ok e2 ∧
      min ((1 - rawSpecCathode.porosity) *
            min rawSpecCathode.density_am (min superP_density ((16/10 + 96/100)/2)))
          ((1 - rawSpecCathode.porosity) *
            max rawSpecCathode.density_am (max superP_density ((16/10 + 96/100)/2))) ≤
        e2.density ∧
      e2.density ≤
        max ((1 - rawSpecCathode.porosity) *
              min rawSpecCathode.density_am (min superP_density ((16/10 + 96/100)/2)))
            ((1 - rawSpecCathode.porosity) *
              max rawSpecCathode.density_am (max superP_density ((16/10 + 96/100)/2))) :=
  c6_composite_density_bounds rawSpecCathode ((16/10 + 96/100)/2) rfl
    (by norm_num [rawSpecCathode]) (by norm_num [rawSpecCathode])
    (by norm_num [rawSpecCathode]) (by norm_num [rawSpecCathode])
    (by norm_num [rawSpecCathode]) (by norm_num)

end WattCell
